import Mathlib

/-!
Shallow embedding of the Mini-Shell command-tree evaluator (`src/cmd.c`)
and proofs about the claims of its specification.

The embedding has several layers, each translated directly from the C
source:

* an operator-tree evaluator (`parse_command`, lines 309-369 of `cmd.c`)
  over trees whose leaves are abstracted by the status that
  `parse_simple` would produce for them (the operator claims quantify
  over child statuses, so the leaf is represented by an identifier and a
  status assignment); the evaluator also returns the ordered trace of
  leaf evaluations, so that "evaluates A then B exactly once" is a
  statement about the result;
* a descriptor-level model of `file_operations` (lines 69-116) over an
  oracle saying which `open` calls succeed, recording every open, dup2
  and close performed;
* models of `shell_cd` (lines 23-59), `parse_simple_cd_case`
  (lines 118-132) and `parse_simple` (lines 205-224) over a small
  file-system / world state;
* an event-trace model of `run_in_parallel` (lines 229-258) recording the
  order of successful fork and waitpid calls.
-/

namespace MiniShell

/-- Value of the `SHELL_EXIT` sentinel. Modelled from the spec: `cmd.h` is
not part of the sources; the spec describes the sentinel as "a
distinguished sentinel meaning terminate the shell process", distinct
from 0 (success) and from ordinary failure codes such as -1, so it is
modelled by the concrete distinguished value -100. None of the theorems
below depend on the particular value, only on its being nonzero. -/
def SHELL_EXIT : Int := -100

/-- The operator tag of an internal `command_t` node. `op_other` stands
for any tag that is none of the five operators handled by the `switch` in
`parse_command` (the `default:` branch, lines 364-365). -/
inductive Op where
  | op_sequential
  | op_parallel
  | op_pipe
  | op_conditional_nzero
  | op_conditional_zero
  | op_other
deriving DecidableEq, Repr

/-- A `command_t` tree: either a leaf (`op == OP_NONE`, carrying its
`simple_command_t`, abstracted here by an identifier) or an internal node
with an operator tag and two children. -/
inductive Cmd where
  | simple (id : Nat)
  | node (o : Op) (c1 c2 : Cmd)
deriving DecidableEq, Repr

/-- C's logical negation `!x` on an `int` status. -/
def cNot (x : Int) : Int := if x = 0 then 1 else 0

/-- Status-level result of `run_in_parallel` (lines 229-258): both
children are forked and each exits with the status of `parse_command` on
its subtree; `exit` truncates the code to 8 bits. The parent waits on
both and, both having exited normally (`WIFEXITED`), checks
`WSTOPSIG(status1) == 0 && WSTOPSIG(status2) == 0`; for a normally
exited child `WSTOPSIG` extracts exactly the 8-bit exit code. -/
def run_in_parallel (r1 r2 : Int) : Bool :=
  (Int.emod r1 256 == 0) && (Int.emod r2 256 == 0)

/-- Status-level result of `run_on_pipe` (lines 263-304): each child
exits with `!parse_command(...)` on its subtree. Both waits store into
the same variable `state`, so the check on line 300 only sees the second
(right) child's status: `WIFSTOPPED(state)` is false for a normal exit
and `WSTOPSIG(state)` is its exit code, so the function returns true iff
the right child's exit code `!r2` is zero. The left child's status is
overwritten and never inspected. -/
def run_on_pipe (r1 r2 : Int) : Bool :=
  let state := cNot r2
  state == 0

/-- The evaluator `parse_command` (lines 309-369). Leaves are abstracted
by the status `stat id` that `parse_simple` yields for them. The result
is the returned status paired with the ordered list of leaf identifiers
evaluated (including those evaluated inside forked children of parallel
and pipe nodes, whose side effects are still observable). Each branch is
a direct transliteration:

* `OP_NONE` leaf: return `parse_simple`'s status (lines 313-317);
* `OP_SEQUENTIAL`: evaluate both children, discard both statuses,
  fall through to `return 0` at line 368 (lines 320-324);
* `OP_PARALLEL`: call `run_in_parallel`, discard its boolean, fall
  through to `return 0` (lines 326-329);
* `OP_CONDITIONAL_NZERO` / `OP_CONDITIONAL_ZERO`: evaluate the left
  child; evaluate the right one exactly when the left status is nonzero
  resp. zero, returning the right status then, else the left status
  (lines 331-349);
* `OP_PIPE`: `if (!run_on_pipe(...)) return 0; else return 1;`
  (lines 351-360);
* `default`: return `SHELL_EXIT` without evaluating either child
  (lines 364-365). -/
def parse_command (stat : Nat → Int) : Cmd → Int × List Nat
  | .simple id => (stat id, [id])
  | .node o c1 c2 =>
    match o with
    | .op_sequential =>
        let r1 := parse_command stat c1
        let r2 := parse_command stat c2
        (0, r1.2 ++ r2.2)
    | .op_parallel =>
        let r1 := parse_command stat c1
        let r2 := parse_command stat c2
        let _discarded := run_in_parallel r1.1 r2.1
        (0, r1.2 ++ r2.2)
    | .op_conditional_nzero =>
        let r1 := parse_command stat c1
        if r1.1 ≠ 0 then
          let r2 := parse_command stat c2
          (r2.1, r1.2 ++ r2.2)
        else (r1.1, r1.2)
    | .op_conditional_zero =>
        let r1 := parse_command stat c1
        if r1.1 = 0 then
          let r2 := parse_command stat c2
          (r2.1, r1.2 ++ r2.2)
        else (r1.1, r1.2)
    | .op_pipe =>
        let r1 := parse_command stat c1
        let r2 := parse_command stat c2
        (if run_on_pipe r1.1 r2.1 = false then 0 else 1, r1.2 ++ r2.2)
    | .op_other => (SHELL_EXIT, [])

/-- Leaf status assignment used in concrete evaluations: leaf 0 fails
with status 1, every other leaf succeeds with status 0. -/
def statLeft1 : Nat → Int := fun i => if i = 0 then 1 else 0

/-- Leaf status assignment used in concrete evaluations: leaf 1 fails
with status 1, every other leaf succeeds with status 0. -/
def statRight1 : Nat → Int := fun i => if i = 1 then 1 else 0

/-- A `simple_command_t` leaf as the evaluator reads it: the resolved
text of the verb, the first parameter (the argument `shell_cd` uses),
and the three redirection targets, each already resolved by `get_word`
(`none` for a NULL pointer). The two append booleans are the
`IO_OUT_APPEND` and `IO_ERR_APPEND` bits of `io_flags`. The field for
`s->in` is named `inp` because `in` is reserved in Lean. -/
structure SimpleCmd where
  verb : Option String
  params : Option String
  inp : Option String
  out : Option String
  err : Option String
  out_append : Bool
  err_append : Bool
deriving DecidableEq, Repr

/-- Result of running code in a process that may call `exit`: either the
process image terminated with the given code before reaching the end, or
the code ran to completion with a value. -/
inductive ProcResult (α : Type) where
  | exited (code : Int)
  | ok (a : α)
deriving DecidableEq, Repr

/-- Trace of the descriptor operations performed by `file_operations`:
descriptors are integers (0,1,2 are the standard slots; the kernel hands
out fresh descriptors from 3 upward, `-1` is a failed open), `opens`
records each successful `open` as (descriptor, path, append-mode),
`dups` records each successful `dup2 old new`, `closes` each `close`. -/
structure FdTrace where
  nextFd : Int
  opens : List (Int × String × Bool)
  dups : List (Int × Int)
  closes : List Int
deriving DecidableEq, Repr

/-- The empty descriptor trace: no operations yet, next fresh fd is 3. -/
def FdTrace.init : FdTrace := ⟨3, [], [], []⟩

/-- An `open` call with the given append-mode flag against the oracle
`openOk` (which says for which paths `open` succeeds). Opening a NULL
path (`none`, from `get_word` of an absent target) fails with -1, as
does any path the oracle rejects; a successful open returns the next
fresh descriptor and records it. -/
def fops_open (openOk : String → Bool) (p : Option String) (app : Bool)
    (st : FdTrace) : Int × FdTrace :=
  match p with
  | none => (-1, st)
  | some path =>
    if openOk path then
      (st.nextFd, { st with
        nextFd := st.nextFd + 1
        opens := st.opens ++ [(st.nextFd, path, app)] })
    else (-1, st)

/-- Record a `dup2 old new`. `dup2` fails (returning -1, with no effect)
exactly when the old descriptor is invalid, i.e. -1 here; the successful
case duplicates onto the standard slot and is recorded. Returns the
C return value paired with the updated trace. -/
def fops_dup2 (oldFd newFd : Int) (st : FdTrace) : Int × FdTrace :=
  if oldFd = -1 then (-1, st)
  else (newFd, { st with dups := st.dups ++ [(oldFd, newFd)] })

/-- `file_operations` (lines 69-116 of `cmd.c`), over the open oracle.

Input block (lines 71-79): if `s->in` is set, open it read-only; a
failed open or a failed `dup2` onto stdin calls `exit(1)`; the
temporary descriptor is then closed.

Output/error block (lines 81-115): entered when `s->out` or `s->err` is
set. The open mode is append when either append bit is set
(`io_flags & (IO_OUT_APPEND | IO_ERR_APPEND)`), else truncate; `out` is
opened first and `dup2`ed onto stdout with the return value unchecked.
If `err` is set: when `out` is non-NULL and names the identical path,
the error descriptor aliases the output descriptor (no second open),
else `err` is opened in the same mode; the result is `dup2`ed onto
stderr, again unchecked. Finally the output descriptor is closed when
valid and not aliased, and the error descriptor is closed when valid
(lines 111-114). -/
def file_operations (openOk : String → Bool) (s : SimpleCmd) :
    ProcResult FdTrace :=
  let st0 := FdTrace.init
  let step1 : ProcResult FdTrace :=
    match s.inp with
    | none => .ok st0
    | some path =>
      let r := fops_open openOk (some path) false st0
      if r.1 = -1 then .exited 1
      else
        let d := fops_dup2 r.1 0 r.2
        if d.1 = -1 then .exited 1
        else .ok { d.2 with closes := d.2.closes ++ [r.1] }
  match step1 with
  | .exited c => .exited c
  | .ok st1 =>
    if s.out = none ∧ s.err = none then .ok st1
    else
      let app := s.out_append || s.err_append
      let ro := fops_open openOk s.out app st1
      let out_fd := ro.1
      let st2 := (fops_dup2 out_fd 1 ro.2).2
      let re : Int × FdTrace :=
        match s.err with
        | none => (-1, st2)
        | some epath =>
          match s.out with
          | some opath =>
            if opath = epath then (out_fd, st2)
            else fops_open openOk (some epath) app st2
          | none => fops_open openOk (some epath) app st2
      let err_fd := re.1
      let st3 :=
        match s.err with
        | none => re.2
        | some _ => (fops_dup2 err_fd 2 re.2).2
      let st4 :=
        if out_fd ≠ -1 ∧ out_fd ≠ err_fd then
          { st3 with closes := st3.closes ++ [out_fd] }
        else st3
      let st5 :=
        if err_fd ≠ -1 then
          { st4 with closes := st4.closes ++ [err_fd] }
        else st4
      .ok st5

/-- `PATH_MAX` of `<limits.h>` on Linux. -/
def PATH_MAX : Nat := 4096

/-- Abstract file system seen by `chdir`/`getcwd`: the current working
directory (as the exact string `getcwd` returns) and the set of path
strings for which `chdir` succeeds. -/
structure FS where
  cwd : String
  dirs : List String
deriving DecidableEq, Repr

/-- The `chdir` system call: succeeds exactly on the paths in `dirs`,
and on success the working directory becomes that path; on failure the
working directory is untouched. -/
def sys_chdir (path : String) (fs : FS) : Option FS :=
  if path ∈ fs.dirs then some { fs with cwd := path } else none

/-- `shell_cd` (lines 23-59 of `cmd.c`). A NULL argument is an immediate
success with no effect. A path starting with `/` is passed to `chdir`
directly. Otherwise the current working directory is fetched and, unless
`strlen(cwd) + strlen(arg) + 1 >= PATH_MAX` (in which case the call
fails with no directory change), the string `cwd ++ "/" ++ arg` is
passed to `chdir`. A failed `chdir` leaves the working directory
unchanged and yields `false`. Returns the C boolean paired with the
resulting file system. -/
def shell_cd (dir : Option String) (fs : FS) : Bool × FS :=
  match dir with
  | none => (true, fs)
  | some next_dir =>
    if next_dir.front = '/' then
      match sys_chdir next_dir fs with
      | none => (false, fs)
      | some fs1 => (true, fs1)
    else
      let path := fs.cwd
      if path.length + next_dir.length + 1 ≥ PATH_MAX then (false, fs)
      else
        match sys_chdir (path ++ "/" ++ next_dir) fs with
        | none => (false, fs)
        | some fs1 => (true, fs1)

/-- `parse_simple_cd_case` (lines 118-132 of `cmd.c`), run by the parent
shell process. It saves stdout/stderr via `fcntl(F_DUPFD)` (the standard
descriptors are valid, so the saves succeed), runs `file_operations` —
which `exit(1)`s the whole shell on an input-redirection failure — then
restores the saved descriptors (valid saved descriptors, so the restoring
`dup2`s succeed) and returns 0 when `shell_cd` succeeds, -1 otherwise. -/
def parse_simple_cd_case (openOk : String → Bool) (s : SimpleCmd)
    (fs : FS) : ProcResult (Int × FS) :=
  match file_operations openOk s with
  | .exited c => .exited c
  | .ok _ =>
    let r := shell_cd s.params fs
    .ok (if r.1 then 0 else -1, r.2)

/-- The ambient state and system-call oracle a simple command runs in:
the file system, the process environment (a list of `NAME=VALUE`
strings), which `open` calls succeed, whether `fork` and `waitpid`
succeed, and the result of `execvp` for a verb (`some code` when the
image is replaced and the command exits with `code`; `none` when
`execvp` fails). -/
structure World where
  fs : FS
  env : List String
  openOk : String → Bool
  forkOk : Bool
  waitOk : Bool
  exec : String → Option Int

/-- Observable outcome of `parse_simple` in the parent shell: the
returned status, how many child processes were forked, the resulting
file system and environment, and what the built-ins printed. -/
structure SimpleResult where
  status : Int
  spawned : Nat
  fs : FS
  env : List String
  printed : List String
deriving DecidableEq, Repr

/-- `parse_simple_external` (lines 161-198 of `cmd.c`). A failed `fork`
returns -1 with no child. Otherwise the child installs redirections
(`exit`ing on input-redirection failure), builds the argument vector and
calls `execvp`; on `execvp` failure it prints an error naming the
command and exits with `EXIT_FAILURE` (1). The parent `waitpid`s on that
child: a failed wait returns -1; for a normally exited child
(`WIFEXITED`) it returns `WSTOPSIG(state)`, i.e. the child's 8-bit exit
code. The parent's file system and environment are untouched. -/
def parse_simple_external (w : World) (s : SimpleCmd) (com : String) :
    ProcResult SimpleResult :=
  if w.forkOk = false then
    .ok ⟨-1, 0, w.fs, w.env, []⟩
  else
    let childExit : Int :=
      match file_operations w.openOk s with
      | .exited c => c
      | .ok _ =>
        match w.exec com with
        | some code => code
        | none => 1
    if w.waitOk = false then
      .ok ⟨-1, 1, w.fs, w.env, []⟩
    else
      .ok ⟨Int.emod childExit 256, 1, w.fs, w.env, []⟩

/-- `parse_simple` (lines 205-224 of `cmd.c`), dispatching on the verb.
A NULL `simple_command_t` or a NULL verb returns -1 at once, with no
process side effect. `cd` runs `parse_simple_cd_case` in the parent;
`exit`/`quit` return the `SHELL_EXIT` sentinel; `pwd` installs
redirections (aborting the shell if that `exit`s), prints the current
working directory and restores the descriptors, returning 0; a verb
containing `=` is passed to `putenv` (modelled as always succeeding,
appending the string to the environment and returning 0); everything
else is an external command. -/
def parse_simple (w : World) (s : Option SimpleCmd) :
    ProcResult SimpleResult :=
  match s with
  | none => .ok ⟨-1, 0, w.fs, w.env, []⟩
  | some sc =>
    match sc.verb with
    | none => .ok ⟨-1, 0, w.fs, w.env, []⟩
    | some com =>
      if com = "cd" then
        match parse_simple_cd_case w.openOk sc w.fs with
        | .exited c => .exited c
        | .ok r => .ok ⟨r.1, 0, r.2, w.env, []⟩
      else if com = "exit" ∨ com = "quit" then
        .ok ⟨SHELL_EXIT, 0, w.fs, w.env, []⟩
      else if com = "pwd" then
        match file_operations w.openOk sc with
        | .exited c => .exited c
        | .ok _ => .ok ⟨0, 0, w.fs, w.env, [w.fs.cwd]⟩
      else if com.contains '=' then
        .ok ⟨0, 0, w.fs, w.env ++ [com], []⟩
      else parse_simple_external w sc com

/-- A process-level event performed by `run_in_parallel`: the successful
spawn of child 1 or 2, or the successful reaping of child 1 or 2. -/
inductive PEvent where
  | fork (child : Nat)
  | wait (child : Nat)
deriving DecidableEq, Repr

/-- Event-trace model of `run_in_parallel` (lines 229-258 of `cmd.c`),
over oracles for the two `fork`s and the two `waitpid`s and the two
children's `parse_command` statuses. Only successful system calls are
recorded. The source returns `false` immediately when the second `fork`
fails (line 243-244), without waiting on the already spawned first
child; likewise a failed first wait returns before the second wait. When
everything succeeds the order is fork 1, fork 2, wait 1, wait 2 and the
result is the `WSTOPSIG`-based status check of `run_in_parallel`. -/
def run_in_parallel_trace (fork1Ok fork2Ok wait1Ok wait2Ok : Bool)
    (r1 r2 : Int) : List PEvent × Bool :=
  if fork1Ok = false then ([], false)
  else if fork2Ok = false then ([.fork 1], false)
  else if wait1Ok = false then ([.fork 1, .fork 2], false)
  else if wait2Ok = false then ([.fork 1, .fork 2, .wait 1], false)
  else ([.fork 1, .fork 2, .wait 1, .wait 2], run_in_parallel r1 r2)

/-- C1: evaluating `(A ; B)` does run A then B, each exactly once and in
that order (the trace is `[0, 1]`), but the evaluator discards both
statuses and falls through to `return 0`, so the result is 0 and not B's
status: here B's status is 1 while the sequential node yields 0. This
evaluates the code at the failing input of the claim. -/
theorem seq_runs_both_in_order_but_returns_zero :
    parse_command statRight1 (.node .op_sequential (.simple 0) (.simple 1))
        = (0, [0, 1])
      ∧ statRight1 1 = 1 := by
  decide

/-- C2 counterexample: in `(A | B)` with A failing (status 1) and B
succeeding (status 0), the evaluator returns 0 (success), so a failure
on the left side does not collapse to failure as the claim states. -/
theorem pipe_ignores_left_failure :
    (parse_command statLeft1 (.node .op_pipe (.simple 0) (.simple 1))).1 = 0
      ∧ statLeft1 0 = 1 := by
  decide

/-- C2 amended: the pipe result is 0 exactly when the right-hand child's
evaluation has status 0, and 1 otherwise; the left-hand child's status
never influences the result (both children exit with the negated status,
but the parent's `state` variable is overwritten by the second wait, and
the final `!run_on_pipe` undoes the child's negation). -/
theorem pipe_result_is_right_status_only (stat : Nat → Int) (A B : Cmd) :
    (parse_command stat (.node .op_pipe A B)).1 =
      (if (parse_command stat B).1 = 0 then 0 else 1) := by
  by_cases h : (parse_command stat B).1 = 0 <;>
    simp [parse_command, run_on_pipe, cNot, h]

/-- C3: the parallel branch calls `run_in_parallel`, whose boolean —
false here because the first child exits with status 1 — is discarded;
`parse_command` falls through to `return 0`, reporting success although
a child failed. This evaluates the code at the failing input of the
claim. -/
theorem parallel_returns_zero_despite_child_failure :
    (parse_command statLeft1 (.node .op_parallel (.simple 0) (.simple 1))).1 = 0
      ∧ statLeft1 0 = 1
      ∧ run_in_parallel 1 0 = false := by
  decide

/-- C4: for `(A && B)` (conditional-if-zero) the right child is
evaluated exactly when A's status is 0, the result being B's status
then and A's status otherwise; for `(A || B)` (conditional-if-nonzero)
the right child is evaluated exactly when A's status is nonzero, the
result being B's status then and A's status otherwise. The trace
component records that B is (resp. is not) evaluated, after A. -/
theorem conditional_evaluates_right_iff_and_combines (stat : Nat → Int)
    (A B : Cmd) :
    parse_command stat (.node .op_conditional_zero A B) =
      (if (parse_command stat A).1 = 0
        then ((parse_command stat B).1,
              (parse_command stat A).2 ++ (parse_command stat B).2)
        else ((parse_command stat A).1, (parse_command stat A).2))
    ∧ parse_command stat (.node .op_conditional_nzero A B) =
      (if (parse_command stat A).1 ≠ 0
        then ((parse_command stat B).1,
              (parse_command stat A).2 ++ (parse_command stat B).2)
        else ((parse_command stat A).1, (parse_command stat A).2)) := by
  constructor <;>
    · by_cases h : (parse_command stat A).1 = 0 <;>
        simp [parse_command, h]

/-- C10: an internal node whose operator tag is none of the five handled
operators reaches the `default:` branch and yields the `SHELL_EXIT`
sentinel — distinct from success (0) and from the ordinary failure code
(-1) — and evaluates neither child. -/
theorem unknown_operator_yields_shell_exit (stat : Nat → Int) (c1 c2 : Cmd) :
    parse_command stat (.node .op_other c1 c2) = (SHELL_EXIT, [])
      ∧ SHELL_EXIT ≠ 0 ∧ SHELL_EXIT ≠ -1 := by
  refine ⟨rfl, by decide, by decide⟩

/-- C5 counterexample: a failed `open` of the input-redirection target
while preparing the built-in `cd` — which runs in the parent shell
process — makes `file_operations` call `exit(1)`, aborting the whole
shell process, instead of being reported through `cd`'s failure status:
the concrete run ends in `exited 1`, not in an `ok` status. -/
theorem cd_input_open_failure_aborts_shell :
    parse_simple_cd_case (fun _ => false)
        ⟨some "cd", none, some "f", none, none, false, false⟩
        ⟨"/", []⟩
      = ProcResult.exited 1 := by
  decide

/-- C5 amended: an `open` failure on the input-redirection target while
installing redirections is fatal to the calling process — it exits with
code 1 — even when the caller is the built-in `cd` running in the parent
shell process; it is not reported via the built-in's failure status. -/
theorem builtin_input_open_failure_is_fatal (openOk : String → Bool)
    (s : SimpleCmd) (fs : FS) (f : String)
    (hin : s.inp = some f) (hopen : openOk f = false) :
    parse_simple_cd_case openOk s fs = ProcResult.exited 1 := by
  simp [parse_simple_cd_case, file_operations, fops_open, hin, hopen]

/-- Witness for C5's amended theorem at a concrete command and file
system. -/
theorem builtin_input_open_failure_is_fatal_witness :
    parse_simple_cd_case (fun _ => false)
        ⟨some "cd", some "d", some "g", none, none, false, false⟩
        ⟨"/home", ["/home/d"]⟩
      = ProcResult.exited 1 :=
  builtin_input_open_failure_is_fatal (fun _ => false)
    ⟨some "cd", some "d", some "g", none, none, false, false⟩
    ⟨"/home", ["/home/d"]⟩ "g" rfl rfl

/-- C6 counterexample: when the first `fork` succeeds and the second
fails, `run_in_parallel` returns false at once — the trace holds the
spawn of child 1 and no wait at all, so a spawned child is left
unwaited, contradicting the strict spawn-both-then-wait-both claim. -/
theorem second_fork_failure_leaves_child_unwaited :
    run_in_parallel_trace true false true true 0 0 = ([.fork 1], false)
      ∧ PEvent.wait 1 ∉ (run_in_parallel_trace true false true true 0 0).1 := by
  decide

/-- C6 amended: when both spawns (and both waits) succeed the spawning
process does follow the strict two-phase order fork 1, fork 2, wait 1,
wait 2; but when the second spawn fails it returns failure immediately
and the already spawned first child is never waited on. -/
theorem parallel_two_phase_or_unwaited_child (w1 w2 : Bool) (r1 r2 : Int) :
    run_in_parallel_trace true true true true r1 r2
        = ([.fork 1, .fork 2, .wait 1, .wait 2], run_in_parallel r1 r2)
      ∧ run_in_parallel_trace true false w1 w2 r1 r2 = ([.fork 1], false) := by
  exact ⟨rfl, rfl⟩

/-- C7: `shell_cd` behaves as claimed: (1) no argument is a no-op
success; (2) an absolute path (leading `/`) that exists is entered
directly; (3) a relative path is concatenated as `cwd ++ "/" ++ rel`
and entered when that path exists and the combined length passes the
`PATH_MAX` check; (4) a relative path whose combined length reaches
`PATH_MAX` fails with no directory change; (5) any path for which
neither it nor `cwd ++ "/" ++ it` is an existing directory fails with
the working directory unchanged. -/
theorem shell_cd_meets_spec (fs : FS) (p rel q : String) :
    shell_cd none fs = (true, fs)
    ∧ (p.front = '/' → p ∈ fs.dirs →
        shell_cd (some p) fs = (true, { fs with cwd := p }))
    ∧ (rel.front ≠ '/' → fs.cwd.length + rel.length + 1 < PATH_MAX →
        (fs.cwd ++ "/" ++ rel) ∈ fs.dirs →
        shell_cd (some rel) fs = (true, { fs with cwd := fs.cwd ++ "/" ++ rel }))
    ∧ (rel.front ≠ '/' → fs.cwd.length + rel.length + 1 ≥ PATH_MAX →
        shell_cd (some rel) fs = (false, fs))
    ∧ (q ∉ fs.dirs → (fs.cwd ++ "/" ++ q) ∉ fs.dirs →
        shell_cd (some q) fs = (false, fs)) := by
  refine ⟨rfl, ?_, ?_, ?_, ?_⟩
  · intro habs hmem
    simp [shell_cd, sys_chdir, habs, hmem]
  · intro hrel hlen hmem
    simp [shell_cd, sys_chdir, hrel, hmem, Nat.not_le.mpr hlen]
  · intro hrel hlen
    simp [shell_cd, hrel, hlen]
  · intro hq hcat
    by_cases habs : q.front = '/'
    · simp [shell_cd, sys_chdir, habs, hq]
    · by_cases hlen : fs.cwd.length + q.length + 1 ≥ PATH_MAX
      · simp [shell_cd, habs, hlen]
      · simp [shell_cd, sys_chdir, habs, hcat, Nat.not_le.mp hlen]

/-- Witness for C7 at the spec's own example: from working directory
`/a/b`, `cd sub` moves to `/a/b/sub`, `cd` with no argument is a no-op
success, and `cd nope` (nonexistent) fails leaving `/a/b` current. -/
theorem shell_cd_meets_spec_witness :
    shell_cd none ⟨"/a/b", ["/a/b/sub"]⟩ = (true, ⟨"/a/b", ["/a/b/sub"]⟩)
    ∧ shell_cd (some "sub") ⟨"/a/b", ["/a/b/sub"]⟩
        = (true, ⟨"/a/b" ++ "/" ++ "sub", ["/a/b/sub"]⟩)
    ∧ shell_cd (some "nope") ⟨"/a/b", ["/a/b/sub"]⟩
        = (false, ⟨"/a/b", ["/a/b/sub"]⟩) := by
  refine ⟨(shell_cd_meets_spec ⟨"/a/b", ["/a/b/sub"]⟩ "x" "y" "z").1,
    (shell_cd_meets_spec ⟨"/a/b", ["/a/b/sub"]⟩ "x" "sub" "z").2.2.1
      (by decide) (by decide) (by decide),
    (shell_cd_meets_spec ⟨"/a/b", ["/a/b/sub"]⟩ "x" "y" "nope").2.2.2.2
      (by decide) (by decide)⟩

/-- C8: when the output and error targets name the identical path the
path is opened once at most (exactly once when the open succeeds), both
standard descriptors are `dup2`ed from that single descriptor, and the
aliased descriptor is closed exactly once; when the targets are distinct
paths each is opened independently and each descriptor is closed once. -/
theorem aliased_redirection_single_open (openOk : String → Bool)
    (v pr : Option String) (p q : String) (oa ea : Bool) :
    (file_operations openOk ⟨v, pr, none, some p, some p, oa, ea⟩ =
      .ok (if openOk p
            then ⟨4, [(3, p, oa || ea)], [(3, 1), (3, 2)], [3]⟩
            else FdTrace.init))
    ∧ (p ≠ q → openOk p = true → openOk q = true →
        file_operations openOk ⟨v, pr, none, some p, some q, oa, ea⟩ =
          .ok ⟨5, [(3, p, oa || ea), (4, q, oa || ea)],
               [(3, 1), (4, 2)], [3, 4]⟩) := by
  constructor
  · by_cases h : openOk p <;>
      simp [file_operations, fops_open, fops_dup2, FdTrace.init, h]
  · intro hne hp hq
    simp [file_operations, fops_open, fops_dup2, FdTrace.init, hp, hq, hne]

/-- Witness for C8: with every open succeeding, identical targets `t`
produce one open, two dups from descriptor 3 and one close of it, while
distinct targets `t`, `u` produce two opens and two closes. -/
theorem aliased_redirection_single_open_witness :
    file_operations (fun _ => true)
        ⟨some "ls", none, none, some "t", some "t", false, false⟩ =
      .ok ⟨4, [(3, "t", false)], [(3, 1), (3, 2)], [3]⟩
    ∧ file_operations (fun _ => true)
        ⟨some "ls", none, none, some "t", some "u", false, false⟩ =
      .ok ⟨5, [(3, "t", false), (4, "u", false)], [(3, 1), (4, 2)], [3, 4]⟩ := by
  constructor
  · have h := (aliased_redirection_single_open (fun _ => true)
      (some "ls") none "t" "u" false false).1
    simpa using h
  · exact (aliased_redirection_single_open (fun _ => true)
      (some "ls") none "t" "u" false false).2 (by decide) rfl rfl

/-- C9: a NULL `simple_command_t`, or one whose verb is NULL, makes
`parse_simple` return -1 immediately: a failure status with no child
spawned, no file-system or environment change, and nothing printed. -/
theorem null_command_or_verb_fails_without_side_effects (w : World)
    (pr i o e : Option String) (oa ea : Bool) :
    parse_simple w none = .ok ⟨-1, 0, w.fs, w.env, []⟩
    ∧ parse_simple w (some ⟨none, pr, i, o, e, oa, ea⟩) =
        .ok ⟨-1, 0, w.fs, w.env, []⟩ :=
  ⟨rfl, rfl⟩

end MiniShell
